import Mathlib

/-! Xpedite control-plane core: request/response protocol, latch, page allocator.

A shallow embedding of three headers of the Xpedite profiler

* `lib/xpedite/framework/request/AbstractRequest.H` (status lifecycle of a response),
* `test/util/Latch.H` (single use count-down barrier),
* `include/xpedite/util/Allocator.H` (page allocator, typed allocator, aligned objects),

followed by theorems about the embedded code.

Conventions of the embedding.

* Mutable C++ objects are records; a member function that mutates `*this` is a
  function returning the new record.
* `size_t` / `uintptr_t` values are natural numbers below `2 ^ 64`, `unsigned`
  values are natural numbers below `2 ^ 32`; every arithmetic operation of the
  source that can wrap is followed by an explicit `% 2 ^ w`.
* A C++ function that may throw returns `Except Exception _`.
* The operating system (`mmap`) and a client constructor are parameters.
-/

/-! ## Part 1. `AbstractRequest.H` -/

namespace xpedite.framework.request

/-- Enumeration `Status` of `AbstractRequest.H`, constructors in source order. -/
inductive Status where
  | SUCCESS
  | NOT_READY
  | FAILED
  deriving DecidableEq, Repr

/-- Data members of `struct AbstractResponse`: `_status` and `_errors`.
The pure virtual `value()` belongs to subclasses and carries no state here. -/
structure AbstractResponse where
  _status : Status
  _errors : String
  deriving DecidableEq, Repr

namespace AbstractResponse

/-- Default constructor `AbstractResponse() : _status {Status::NOT_READY}, _errors {}`. -/
def init : AbstractResponse :=
  { _status := Status.NOT_READY, _errors := "" }

/-- Accessor `status()`: returns `_status`. -/
def status (r : AbstractResponse) : Status :=
  r._status

/-- Accessor `errors()`: returns `_errors`. -/
def errors (r : AbstractResponse) : String :=
  r._errors

/-- Member `setErrors(errors_)`: `_errors = std::move(errors_); _status = Status::FAILED;`. -/
def setErrors (r : AbstractResponse) (errors_ : String) : AbstractResponse :=
  let r1 := { r with _errors := errors_ }
  { r1 with _status := Status.FAILED }

/-- Conversion `explicit operator bool()`: `_status == Status::SUCCESS`. -/
def toBool (r : AbstractResponse) : Bool :=
  r._status == Status.SUCCESS

end AbstractResponse

/-- State of an `AbstractRequest`. The accessor `response()` is pure virtual in the
source; every request owns exactly one response, which is the only state the
non-virtual member `abort` touches. -/
structure AbstractRequest where
  response : AbstractResponse
  deriving DecidableEq, Repr

namespace AbstractRequest

/-- A request whose embedded response was just default-constructed. -/
def init : AbstractRequest :=
  { response := AbstractResponse.init }

/-- Member `abort(errors_)`: `response().setErrors(std::move(errors_));`. -/
def abort (q : AbstractRequest) (errors_ : String) : AbstractRequest :=
  { q with response := q.response.setErrors errors_ }

end AbstractRequest

/-- The two mutating calls the header offers on a request and its response. -/
inductive Call where
  | setErrors (e : String)
  | abort (e : String)
  deriving DecidableEq, Repr

namespace Call

/-- The message argument of a call. -/
def message : Call → String
  | setErrors e => e
  | abort e => e

/-- Effect of one call on a request: `setErrors` is applied to the response the
request owns, `abort` to the request itself. -/
def apply (q : AbstractRequest) : Call → AbstractRequest
  | setErrors e => { q with response := q.response.setErrors e }
  | abort e => q.abort e

/-- Effect of a sequence of calls, first call first. -/
def run (q : AbstractRequest) (cs : List Call) : AbstractRequest :=
  cs.foldl apply q

end Call

end xpedite.framework.request

/-! ## Part 2. `Latch.H` -/

/-- Number of values of the C++ type `unsigned` (32 bits). -/
def UINT_MODULUS : Nat := 2 ^ 32

/-- State of `class Latch`. `_count` is the `unsigned` counter. `_cv` records the one
observable effect of the condition variable on the signalling side: the number of
`notify_one()` calls issued on it so far. `_mutex` serialises the member functions, so
a history of the latch is a sequence of calls; it carries no further state. -/
structure Latch where
  _cv : Nat
  _count : Nat
  deriving DecidableEq, Repr

namespace Latch

/-- Constructor `Latch(unsigned count_) : _mutex {}, _cv {}, _count {count_}`. -/
def init (count_ : Nat) : Latch :=
  { _cv := 0, _count := count_ }

/-- Call `_cv.notify_one()`. -/
def notify_one (l : Latch) : Latch :=
  { l with _cv := l._cv + 1 }

/-- Member `countDown()`:
`if(_count) { if(--_count == 0) { _cv.notify_one(); } }`,
the pre-decrement taken modulo `2 ^ 32`. -/
def countDown (l : Latch) : Latch :=
  if l._count ≠ 0 then
    let l1 := { l with _count := (l._count + UINT_MODULUS - 1) % UINT_MODULUS }
    if l1._count = 0 then l1.notify_one else l1
  else l

/-- Predicate of `wait()`: the lambda `[=]{ return !_count; }`; `wait()` returns as soon
as it is evaluated to true under the lock. -/
def waitPredicate (l : Latch) : Bool :=
  l._count == 0

/-- The latch after `k` successive `countDown()` calls. -/
def countDowns (l : Latch) : Nat → Latch
  | 0 => l
  | k + 1 => (countDowns l k).countDown

/-- Whether a `countDown()` call made in state `l` issues a notification. -/
def notifies (l : Latch) : Bool :=
  l.countDown._cv != l._cv

end Latch

/-! ## Part 3. `Allocator.H` -/

namespace xpedite.util

/-- Number of values of `size_t` and `uintptr_t` (64 bits). -/
def SIZE_MODULUS : Nat := 2 ^ 64

/-- Constant `std::numeric_limits<size_t>::max()`. -/
def SIZE_MAX : Nat := 2 ^ 64 - 1

/-- Constant `MAP_FAILED` of `<sys/mman.h>`, the address `(void*) -1`. -/
def MAP_FAILED : Nat := 2 ^ 64 - 1

/-- The null pointer as an address. -/
def nullptr : Nat := 0

/-- Page size used by `xpediteMalloc` (the literal `4096` of the source). -/
def pageSize : Nat := 4096

/-- Exceptions thrown by the header. -/
inductive Exception where
  | bad_alloc
  | runtime_error (what : String)
  deriving DecidableEq, Repr

/-- What one call of `xpediteMalloc` does: the length handed to `mmap`, the
`(pointer, length)` handed to `memset` when that statement is reached, and the
returned pointer. -/
structure MallocCall where
  mmapLength : Nat
  memsetArgs : Option (Nat × Nat)
  ptr : Nat
  deriving DecidableEq, Repr

/-- The statement `size = (size / 4096 + 1) * 4096;` in `size_t` arithmetic. -/
def roundedSize (size : Nat) : Nat :=
  ((size / 4096 + 1) % SIZE_MODULUS * 4096) % SIZE_MODULUS

/-- Function `xpediteMalloc(size)`. The parameter `mmap` is the operating system: it
maps the requested length to the address `mmap(nullptr, length, PROT_READ|PROT_WRITE,
MAP_PRIVATE|MAP_ANONYMOUS, -1, 0)` returns, `MAP_FAILED` on failure. -/
def xpediteMalloc (mmap : Nat → Nat) (size : Nat) : MallocCall :=
  let size := roundedSize size
  let ptr := mmap size
  if ptr = MAP_FAILED then
    { mmapLength := size, memsetArgs := none, ptr := nullptr }
  else
    { mmapLength := size, memsetArgs := some (ptr, size), ptr := ptr }

/-- Function template `xpediteNew<T>(args...)`, with `sizeofT = sizeof(T)` and
`construct p` the constructor call `T {args...}` of the placement new at `p`
(client code, which may throw). -/
def xpediteNew (mmap : Nat → Nat) (sizeofT : Nat)
    (construct : Nat → Except Exception Unit) : Except Exception Nat :=
  let p := (xpediteMalloc mmap sizeofT).ptr
  if p ≠ nullptr then
    match construct p with
    | Except.ok _ => Except.ok p
    | Except.error e => Except.error e
  else
    Except.error Exception.bad_alloc

namespace Allocator

/-- The product `n_ * sizeof(T)` of `allocate`, in `size_t` arithmetic. -/
def byteSize (sizeofT n_ : Nat) : Nat :=
  (n_ * sizeofT) % SIZE_MODULUS

/-- Member `Allocator<T>::allocate(n_)`, with `sizeofT = sizeof(T)`:
`const auto size = n_ * sizeof(T);` then `xpediteMalloc(size)`, a null result turned
into `std::bad_alloc`. -/
def allocate (mmap : Nat → Nat) (sizeofT n_ : Nat) : Except Exception Nat :=
  let size := byteSize sizeofT n_
  let ptr := (xpediteMalloc mmap size).ptr
  if ptr ≠ nullptr then
    Except.ok ptr
  else
    Except.error Exception.bad_alloc

/-- Member `Allocator<T>::max_size()`:
`std::numeric_limits<size_type>::max() / sizeof(value_type)`. -/
def max_size (sizeofT : Nat) : Nat :=
  SIZE_MAX / sizeofT

end Allocator

namespace AlignedObject

/-- Rendering of a pointer by `operator<<`: hexadecimal with a `0x` head. -/
def showPointer (p : Nat) : String :=
  "0x" ++ String.mk (Nat.toDigits 16 p)

/-- The text of the alignment fault. -/
def faultText (ALIGNMENT this : Nat) : String :=
  "Object allocated at unalined address (" ++ showPointer this ++
    "). - expected alignment " ++ toString ALIGNMENT ++ " bytes."

/-- Constructor `AlignedObject<ALIGNMENT>::AlignedObject()` run at address `this`:
`if(reinterpret_cast<uintptr_t>(this) & (ALIGNMENT - 1)) throw std::runtime_error`,
the subtraction in `size_t` arithmetic. -/
def init (ALIGNMENT this : Nat) : Except Exception Unit :=
  if this &&& ((ALIGNMENT + SIZE_MODULUS - 1) % SIZE_MODULUS) ≠ 0 then
    Except.error (Exception.runtime_error (faultText ALIGNMENT this))
  else
    Except.ok ()

end AlignedObject

/-- Specification side of the page rounding: `ceil(s / pageSize)` as a page count. -/
def specPages (s : Nat) : Nat :=
  (s + (pageSize - 1)) / pageSize

/-- Specification side of the page rounding: `ceil(s / pageSize) * pageSize` bytes. -/
def specBlockSize (s : Nat) : Nat :=
  specPages s * pageSize

end xpedite.util

/-! ## Theorems, part 1: status lifecycle of a response -/

namespace xpedite.framework.request

theorem status_setErrors (r : AbstractResponse) (e : String) :
    (r.setErrors e).status = Status.FAILED := rfl

theorem errors_setErrors (r : AbstractResponse) (e : String) :
    (r.setErrors e).errors = e := rfl

theorem response_apply (q : AbstractRequest) (c : Call) :
    (Call.apply q c).response = q.response.setErrors c.message := by
  cases c <;> rfl

theorem run_append (q : AbstractRequest) (cs : List Call) (c : Call) :
    Call.run q (cs ++ [c]) = Call.apply (Call.run q cs) c := by
  simp [Call.run, List.foldl_append]

/-- After at least one call the response holds the message of the last call and is
`FAILED`; after no call it is unchanged. -/
theorem run_cases (q : AbstractRequest) (cs : List Call) :
    (cs = [] ∧ Call.run q cs = q) ∨
      (∃ c ∈ cs, (Call.run q cs).response.errors = c.message ∧
        (Call.run q cs).response.status = Status.FAILED) := by
  induction cs using List.reverseRecOn with
  | nil => exact Or.inl ⟨rfl, rfl⟩
  | append_singleton cs c _ =>
    refine Or.inr ⟨c, by simp, ?_, ?_⟩
    · rw [run_append, response_apply, errors_setErrors]
    · rw [run_append, response_apply, status_setErrors]

/-- C1, as stated, fails: one `abort("")` on a fresh request leaves the response
`FAILED` with empty `errors()`, so "errors non-empty iff status is FAILED" is false in a
reachable state. -/
theorem C1_empty_message_breaks_invariant :
    ¬ ((Call.run AbstractRequest.init [Call.abort ""]).response.errors ≠ "" ↔
        (Call.run AbstractRequest.init [Call.abort ""]).response.status = Status.FAILED) := by
  decide

/-- C1, amended: in every state reachable from a freshly constructed response by
`setErrors(e)` / `abort(e)` calls with arbitrary strings, non-empty `errors()` implies
status `FAILED`; and when every message passed is non-empty, `errors()` is non-empty
if and only if the status is `FAILED`. -/
theorem C1_errors_nonempty_iff_failed (cs : List Call) :
    ((Call.run AbstractRequest.init cs).response.errors ≠ "" →
        (Call.run AbstractRequest.init cs).response.status = Status.FAILED) ∧
      ((∀ c ∈ cs, c.message ≠ "") →
        ((Call.run AbstractRequest.init cs).response.errors ≠ "" ↔
          (Call.run AbstractRequest.init cs).response.status = Status.FAILED)) := by
  rcases run_cases AbstractRequest.init cs with ⟨_, h⟩ | ⟨c, hc, he, hs⟩
  · rw [h]
    exact ⟨fun h0 => absurd rfl h0, fun _ => ⟨fun h0 => absurd rfl h0, fun h1 => by cases h1⟩⟩
  · exact ⟨fun _ => hs, fun hall => ⟨fun _ => hs, fun _ => he ▸ hall c hc⟩⟩

/-- Instance of the amended C1 at the history `setErrors("timeout"); abort("bad input")`. -/
theorem C1_errors_nonempty_iff_failed_witness :
    (∀ c ∈ [Call.setErrors "timeout", Call.abort "bad input"], c.message ≠ "") ∧
      ((Call.run AbstractRequest.init
          [Call.setErrors "timeout", Call.abort "bad input"]).response.errors ≠ "" ↔
        (Call.run AbstractRequest.init
          [Call.setErrors "timeout", Call.abort "bad input"]).response.status
            = Status.FAILED) :=
  ⟨by decide,
    (C1_errors_nonempty_iff_failed [Call.setErrors "timeout", Call.abort "bad input"]).2
      (by decide)⟩

/-- C2, as stated, fails: a response whose status is `SUCCESS` is moved to `FAILED`
by `setErrors`, so `SUCCESS` is not terminal under the operations of the core. -/
theorem C2_success_not_terminal :
    ¬ ((AbstractResponse.mk Status.SUCCESS "").status = Status.SUCCESS ∨
        (AbstractResponse.mk Status.SUCCESS "").status = Status.FAILED →
      ((AbstractResponse.mk Status.SUCCESS "").setErrors "late").status =
        (AbstractResponse.mk Status.SUCCESS "").status) := by
  decide

/-- C2, amended: `FAILED` is terminal, a request whose response is `FAILED` stays
`FAILED` under every sequence of `setErrors` / `abort` calls; and each such call, made
in any status (`NOT_READY`, `SUCCESS` or `FAILED`), yields `FAILED`, so the status
changes these operations make are `NOT_READY -> FAILED` and `SUCCESS -> FAILED`. -/
theorem C2_failed_terminal (q : AbstractRequest) :
    (q.response.status = Status.FAILED →
        ∀ cs : List Call, (Call.run q cs).response.status = Status.FAILED) ∧
      (∀ c : Call, (Call.apply q c).response.status = Status.FAILED) ∧
      (∀ c : Call, (Call.apply q c).response.status ≠ q.response.status →
        (q.response.status = Status.NOT_READY ∨ q.response.status = Status.SUCCESS) ∧
          (Call.apply q c).response.status = Status.FAILED) := by
  refine ⟨fun hq cs => ?_, fun c => ?_, fun c hne => ?_⟩
  · rcases run_cases q cs with ⟨_, h⟩ | ⟨_, _, _, hs⟩
    · rw [h]; exact hq
    · exact hs
  · rw [response_apply, status_setErrors]
  · rw [response_apply, status_setErrors] at hne
    refine ⟨?_, by rw [response_apply, status_setErrors]⟩
    cases hst : q.response.status with
    | SUCCESS => exact Or.inr rfl
    | NOT_READY => exact Or.inl rfl
    | FAILED => exact absurd hst.symm hne

/-- Instance of the amended C2: a response already `FAILED` with "first" stays `FAILED`
under `abort("second"); setErrors("")`. -/
theorem C2_failed_terminal_witness :
    (AbstractRequest.mk (AbstractResponse.mk Status.FAILED "first")).response.status
        = Status.FAILED ∧
      (Call.run (AbstractRequest.mk (AbstractResponse.mk Status.FAILED "first"))
        [Call.abort "second", Call.setErrors ""]).response.status = Status.FAILED :=
  ⟨rfl,
    (C2_failed_terminal (AbstractRequest.mk (AbstractResponse.mk Status.FAILED "first"))).1
      rfl [Call.abort "second", Call.setErrors ""]⟩

/-- C3: a freshly constructed response has status `NOT_READY`, empty errors and boolean
view false; for every message `m` and every prior state, after `abort(m)` the status is
`FAILED`, `errors() == m` and the boolean view is false; and in every state the boolean
view is true exactly when the status is `SUCCESS`. -/
theorem C3_fresh_and_abort :
    (AbstractResponse.init.status = Status.NOT_READY ∧
        AbstractResponse.init.errors = "" ∧
        AbstractResponse.init.toBool = false) ∧
      (∀ (q : AbstractRequest) (m : String),
        (q.abort m).response.status = Status.FAILED ∧
          (q.abort m).response.errors = m ∧
          (q.abort m).response.toBool = false) ∧
      (∀ r : AbstractResponse, r.toBool = decide (r.status = Status.SUCCESS)) := by
  refine ⟨⟨rfl, rfl, rfl⟩, fun q m => ⟨rfl, rfl, rfl⟩, fun r => ?_⟩
  cases r with
  | mk s e => cases s <;> rfl

end xpedite.framework.request

/-! ## Theorems, part 2: the latch -/

namespace Latch

theorem countDown_of_zero (l : Latch) (h : l._count = 0) : l.countDown = l := by
  simp [countDown, h]

theorem wrap_decrement (c : Nat) (h0 : c ≠ 0) (h : c < UINT_MODULUS) :
    (c + UINT_MODULUS - 1) % UINT_MODULUS = c - 1 := by
  unfold UINT_MODULUS at *
  omega

theorem countDown_count (l : Latch) (h : l._count < UINT_MODULUS) :
    l.countDown._count = l._count - 1 := by
  by_cases h0 : l._count = 0
  · rw [countDown_of_zero l h0, h0]
  · have hw := wrap_decrement l._count h0 h
    by_cases h1 : l._count - 1 = 0
    · simp [countDown, h0, hw, h1, notify_one]
    · simp [countDown, h0, hw, h1]

theorem countDown_cv (l : Latch) (h : l._count < UINT_MODULUS) :
    l.countDown._cv = l._cv + (if l._count = 1 then 1 else 0) := by
  by_cases h0 : l._count = 0
  · rw [countDown_of_zero l h0]; simp [h0]
  · have hw := wrap_decrement l._count h0 h
    by_cases h1 : l._count = 1
    · simp [countDown, hw, h1, notify_one]
    · have h2 : ¬ (l._count - 1 = 0) := by omega
      simp [countDown, h0, hw, h1, h2]

/-- Closed form of the state after `k` calls of `countDown()`. -/
theorem countDowns_closed (l : Latch) (h : l._count < UINT_MODULUS) (k : Nat) :
    (l.countDowns k)._count = l._count - k ∧
      (l.countDowns k)._cv = l._cv + (if 1 ≤ l._count ∧ l._count ≤ k then 1 else 0) := by
  induction k with
  | zero =>
    refine ⟨rfl, ?_⟩
    have h0 : ¬ (1 ≤ l._count ∧ l._count ≤ 0) := by omega
    rw [if_neg h0]
    rfl
  | succ k ih =>
    obtain ⟨ihc, ihv⟩ := ih
    have hlt : (l.countDowns k)._count < UINT_MODULUS := by rw [ihc]; omega
    refine ⟨?_, ?_⟩
    · show (l.countDowns k).countDown._count = _
      rw [countDown_count _ hlt, ihc]; omega
    · show (l.countDowns k).countDown._cv = _
      rw [countDown_cv _ hlt, ihc, ihv]
      by_cases ha : l._count - k = 1
      · have hb : ¬ (1 ≤ l._count ∧ l._count ≤ k) := by omega
        have hc : 1 ≤ l._count ∧ l._count ≤ k + 1 := by omega
        rw [if_pos ha, if_neg hb, if_pos hc]
      · by_cases hb : 1 ≤ l._count ∧ l._count ≤ k
        · have hc : 1 ≤ l._count ∧ l._count ≤ k + 1 := by omega
          rw [if_neg ha, if_pos hb, if_pos hc]
        · have hc : ¬ (1 ≤ l._count ∧ l._count ≤ k + 1) := by omega
          rw [if_neg ha, if_neg hb, if_neg hc]

theorem notifies_iff (l : Latch) (h : l._count < UINT_MODULUS) :
    l.notifies = true ↔ l._count = 1 := by
  unfold notifies
  rw [countDown_cv l h]
  by_cases h1 : l._count = 1 <;> simp [h1]

/-- C4: for every initial count `N` (an `unsigned`) and every `k`, after `k` calls of
`countDown()` on a latch constructed with `N` the count is `max(N - k, 0)`; the count
never increases, once zero it stays zero, calls beyond the `N`-th leave the latch
unchanged, and the predicate of `wait()` (count is zero) holds exactly when `k >= N`,
in particular at once when `N` is zero. -/
theorem C4_count_after_calls (N k : Nat) (hN : N < UINT_MODULUS) :
    ((((init N).countDowns k)._count : Int) = max ((N : Int) - (k : Int)) 0) ∧
      (((init N).countDowns (k + 1))._count ≤ ((init N).countDowns k)._count) ∧
      (((init N).countDowns k)._count = 0 →
        ∀ j : Nat, ((init N).countDowns (k + j))._count = 0) ∧
      (N ≤ k → (init N).countDowns (k + 1) = (init N).countDowns k) ∧
      (((init N).countDowns k).waitPredicate = true ↔ N ≤ k) ∧
      (N = 0 → (init N).waitPredicate = true) := by
  have hcl : ∀ j, ((init N).countDowns j)._count = N - j :=
    fun j => (countDowns_closed (init N) hN j).1
  refine ⟨?_, ?_, ?_, ?_, ?_, ?_⟩
  · rw [hcl]; omega
  · rw [hcl, hcl]; omega
  · intro h0 j
    rw [hcl] at h0
    rw [hcl]; omega
  · intro hk
    show ((init N).countDowns k).countDown = _
    exact countDown_of_zero _ (by rw [hcl]; omega)
  · unfold waitPredicate
    rw [hcl]
    simp
    omega
  · intro h0
    subst h0
    rfl

/-- Instance of C4: a latch constructed with 3, after 5 calls. -/
theorem C4_count_after_calls_witness :
    (3 < UINT_MODULUS) ∧
      ((((init 3).countDowns 5)._count : Int) = max ((3 : Int) - (5 : Int)) 0) ∧
      (((init 3).countDowns 5).waitPredicate = true ↔ 3 ≤ 5) :=
  ⟨by decide,
    (C4_count_after_calls 3 5 (by decide)).1,
    (C4_count_after_calls 3 5 (by decide)).2.2.2.2.1⟩

/-- C10: for a latch constructed with `N >= 1` and any number `k` of earlier
`countDown()` calls, the next call issues a notification if and only if it moves the
count from 1 to 0; the number of notifications issued by the first `k` calls is 1 when
`k >= N` and 0 otherwise; and a call on a count that is already zero leaves the latch
unchanged and notifies nobody. -/
theorem C10_single_wakeup (N k : Nat) (hN1 : 1 ≤ N) (hN : N < UINT_MODULUS) :
    (((init N).countDowns k).notifies = true ↔
        ((init N).countDowns k)._count = 1 ∧ ((init N).countDowns (k + 1))._count = 0) ∧
      (((init N).countDowns k)._cv = if N ≤ k then 1 else 0) ∧
      (((init N).countDowns k)._count = 0 →
        ((init N).countDowns k).countDown = (init N).countDowns k ∧
          ((init N).countDowns k).notifies = false) := by
  have hcl := fun j => countDowns_closed (init N) hN j
  have hlt : ((init N).countDowns k)._count < UINT_MODULUS := by
    rw [(hcl k).1]; show N - k < _; omega
  refine ⟨?_, ?_, ?_⟩
  · rw [notifies_iff _ hlt, (hcl k).1, (hcl (k + 1)).1]
    show N - k = 1 ↔ N - k = 1 ∧ N - (k + 1) = 0
    omega
  · rw [(hcl k).2]
    show 0 + (if 1 ≤ N ∧ N ≤ k then 1 else 0) = _
    by_cases hk : N ≤ k
    · simp [hk, hN1]
    · simp [hk]
  · intro h0
    refine ⟨countDown_of_zero _ h0, ?_⟩
    have := notifies_iff _ hlt
    rw [h0] at this
    cases hn : ((init N).countDowns k).notifies with
    | false => rfl
    | true => exact absurd (this.mp hn) (by decide)

/-- Instance of C10: a latch constructed with 2; the second call notifies, and after
four calls exactly one notification was issued. -/
theorem C10_single_wakeup_witness :
    (1 ≤ 2 ∧ 2 < UINT_MODULUS) ∧
      (((init 2).countDowns 1).notifies = true ↔
        ((init 2).countDowns 1)._count = 1 ∧ ((init 2).countDowns (1 + 1))._count = 0) ∧
      (((init 2).countDowns 4)._cv = if 2 ≤ 4 then 1 else 0) :=
  ⟨⟨by decide, by decide⟩,
    (C10_single_wakeup 2 1 (by decide) (by decide)).1,
    (C10_single_wakeup 2 4 (by decide) (by decide)).2.1⟩

end Latch

/-! ## Theorems, part 3: the allocators and the aligned object -/

namespace xpedite.util

/-- The page count `specPages s` is the ceiling of `s / pageSize`: the least number of
pages that hold `s` bytes. -/
theorem specPages_least (s : Nat) :
    s ≤ specPages s * pageSize ∧ ∀ p : Nat, s ≤ p * pageSize → specPages s ≤ p := by
  unfold specPages pageSize
  constructor
  · omega
  · intro p hp
    omega

/-- The same ceiling, read in the rationals. -/
theorem specPages_eq_ceil (s : Nat) :
    specPages s = ⌈(s : ℚ) / (pageSize : ℚ)⌉₊ := by
  rcases Nat.eq_zero_or_pos s with h0 | hpos
  · subst h0
    simp [specPages, pageSize]
  · have hn : specPages s ≠ 0 := by
      unfold specPages pageSize
      omega
    have hlo : (specPages s - 1) * 4096 < s := by
      unfold specPages pageSize
      omega
    have hhi : s ≤ specPages s * 4096 := by
      unfold specPages pageSize
      omega
    have hlo1 : (((specPages s - 1 : ℕ) : ℚ)) * 4096 < (s : ℚ) := by exact_mod_cast hlo
    have hhi1 : (s : ℚ) ≤ ((specPages s : ℕ) : ℚ) * 4096 := by exact_mod_cast hhi
    have h4096 : (0 : ℚ) < 4096 := by norm_num
    symm
    rw [Nat.ceil_eq_iff hn]
    have hp : ((pageSize : ℕ) : ℚ) = 4096 := by norm_num [pageSize]
    rw [hp]
    constructor
    · rw [lt_div_iff₀ h4096]; exact hlo1
    · rw [div_le_iff₀ h4096]; exact hhi1

/-- Below `2 ^ 64 - 4096` the rounding of `xpediteMalloc` does not wrap. -/
theorem roundedSize_of_lt (s : Nat) (hs : s < SIZE_MODULUS - pageSize) :
    roundedSize s = (s / pageSize + 1) * pageSize := by
  unfold roundedSize SIZE_MODULUS pageSize at *
  omega

theorem roundedSize_dvd (s : Nat) : pageSize ∣ roundedSize s := by
  unfold roundedSize SIZE_MODULUS pageSize
  omega

theorem mmapLength_eq (mmap : Nat → Nat) (s : Nat) :
    (xpediteMalloc mmap s).mmapLength = roundedSize s := by
  by_cases h : mmap (roundedSize s) = MAP_FAILED <;> simp [xpediteMalloc, h]

theorem memsetArgs_eq (mmap : Nat → Nat) (s : Nat) :
    (xpediteMalloc mmap s).memsetArgs =
      if mmap (roundedSize s) = MAP_FAILED then none
      else some (mmap (roundedSize s), roundedSize s) := by
  by_cases h : mmap (roundedSize s) = MAP_FAILED <;> simp [xpediteMalloc, h]

theorem ptr_eq (mmap : Nat → Nat) (s : Nat) :
    (xpediteMalloc mmap s).ptr =
      if mmap (roundedSize s) = MAP_FAILED then nullptr else mmap (roundedSize s) := by
  by_cases h : mmap (roundedSize s) = MAP_FAILED <;> simp [xpediteMalloc, h]

/-- C5, as stated, fails: for the size 4096, already one whole page, `xpediteMalloc`
asks `mmap` for 8192 bytes, while `ceil(4096 / 4096) * 4096` is 4096. -/
theorem C5_whole_page_is_enlarged :
    ¬ ((xpediteMalloc (fun _ => 140737488351232) 4096).mmapLength = specBlockSize 4096) := by
  decide

/-- C5, amended: for every size `s` below `2 ^ 64 - 4096`, `xpediteMalloc`
asks the OS for exactly `(floor(s / 4096) + 1) * 4096` bytes and, when the mapping
succeeds, zero-fills that same number of bytes at the address returned; this number is
`ceil(s / pageSize) * pageSize` when `s` is not a whole number of pages, and one page
more than that when `s` is a whole number of pages. -/
theorem C5_block_size (mmap : Nat → Nat) (s : Nat) (hs : s < SIZE_MODULUS - pageSize) :
    (xpediteMalloc mmap s).mmapLength = (s / pageSize + 1) * pageSize ∧
      (mmap ((s / pageSize + 1) * pageSize) ≠ MAP_FAILED →
        (xpediteMalloc mmap s).memsetArgs =
          some (mmap ((s / pageSize + 1) * pageSize), (s / pageSize + 1) * pageSize)) ∧
      (s % pageSize ≠ 0 → (xpediteMalloc mmap s).mmapLength = specBlockSize s) ∧
      (s % pageSize = 0 →
        (xpediteMalloc mmap s).mmapLength = specBlockSize s + pageSize) := by
  have hr := roundedSize_of_lt s hs
  refine ⟨?_, ?_, ?_, ?_⟩
  · rw [mmapLength_eq, hr]
  · intro hok
    rw [memsetArgs_eq, hr, if_neg hok]
  · intro hrem
    rw [mmapLength_eq, hr]
    unfold specBlockSize specPages pageSize at *
    omega
  · intro hrem
    rw [mmapLength_eq, hr]
    unfold specBlockSize specPages pageSize at *
    omega

/-- Instance of the amended C5 at the size 5000 (two pages) with a mapping that succeeds. -/
theorem C5_block_size_witness :
    (5000 < SIZE_MODULUS - pageSize ∧ 5000 % pageSize ≠ 0) ∧
      (xpediteMalloc (fun _ => 140737488351232) 5000).mmapLength = specBlockSize 5000 :=
  ⟨⟨by decide, by decide⟩,
    (C5_block_size (fun _ => 140737488351232) 5000 (by decide)).2.2.1
      (by decide)⟩

/-- C6, as stated, fails: for the size `2 ^ 64 - 1` the rounding wraps and the byte
count handed to `mmap` is 0, which is not at least the requested size. -/
theorem C6_rounding_wraps :
    ¬ (pageSize ∣ (xpediteMalloc (fun _ => MAP_FAILED) 18446744073709551615).mmapLength ∧
        18446744073709551615 ≤
          (xpediteMalloc (fun _ => MAP_FAILED) 18446744073709551615).mmapLength) := by
  rw [mmapLength_eq]
  decide

/-- C6, amended: for every size `s` of type `size_t` the byte count `xpediteMalloc`
passes to `mmap` is a whole multiple of the 4096-byte page size, and `memset`, when
reached, gets the same count; for every `s` below `2 ^ 64 - 4096` that count is greater
than `s`, so the mapped, zero-filled block covers the requested size. -/
theorem C6_page_multiple_covering (mmap : Nat → Nat) (s : Nat) :
    pageSize ∣ (xpediteMalloc mmap s).mmapLength ∧
      (∀ a : Nat × Nat, (xpediteMalloc mmap s).memsetArgs = some a →
        a.2 = (xpediteMalloc mmap s).mmapLength) ∧
      (s < SIZE_MODULUS - pageSize → s < (xpediteMalloc mmap s).mmapLength) := by
  refine ⟨?_, ?_, ?_⟩
  · rw [mmapLength_eq]; exact roundedSize_dvd s
  · intro a ha
    rw [memsetArgs_eq] at ha
    rw [mmapLength_eq]
    by_cases hm : mmap (roundedSize s) = MAP_FAILED
    · rw [if_pos hm] at ha; cases ha
    · rw [if_neg hm] at ha
      cases ha
      rfl
  · intro hlt
    rw [mmapLength_eq, roundedSize_of_lt s hlt]
    unfold pageSize
    omega

/-- Instance of the amended C6 at the size 8192 with a mapping that succeeds. -/
theorem C6_page_multiple_covering_witness :
    8192 < SIZE_MODULUS - pageSize ∧
      8192 < (xpediteMalloc (fun _ => 140737488351232) 8192).mmapLength :=
  ⟨by decide,
    (C6_page_multiple_covering (fun _ => 140737488351232) 8192).2.2 (by decide)⟩

/-- C7, as stated, fails for `xpediteNew`: with a mapping that succeeds at the page
aligned address `0x7ffffffff000` and `T = AlignedObject<8192>`, whose constructor
raises the alignment fault there, `xpediteMalloc` returns a non-null address and yet
`xpediteNew` does not return it: the fault of the constructor leaves `xpediteNew`. -/
theorem C7_constructor_fault_escapes :
    ¬ ((xpediteNew (fun _ => 140737488351232) 8192 (AlignedObject.init 8192)
            = Except.error Exception.bad_alloc ↔
          (xpediteMalloc (fun _ => 140737488351232) 8192).ptr = nullptr) ∧
        ((xpediteMalloc (fun _ => 140737488351232) 8192).ptr ≠ nullptr →
          xpediteNew (fun _ => 140737488351232) 8192 (AlignedObject.init 8192)
            = Except.ok (xpediteMalloc (fun _ => 140737488351232) 8192).ptr)) := by
  intro h
  have hp : (xpediteMalloc (fun _ => 140737488351232) 8192).ptr ≠ nullptr := by decide
  have hnew : xpediteNew (fun _ => 140737488351232) 8192 (AlignedObject.init 8192)
      = Except.error
          (Exception.runtime_error (AlignedObject.faultText 8192 140737488351232)) := by
    rfl
  have hok := h.2 hp
  rw [hnew] at hok
  cases hok

/-- C7, amended: failure signalling of the allocation layers. `xpediteMalloc` is a
total function (it raises nothing) and, the OS never mapping at address 0, returns null
exactly when `mmap` fails. `Allocator::allocate` raises `bad_alloc` exactly when the
underlying `xpediteMalloc` returns null and otherwise returns that same address.
`xpediteNew` raises `bad_alloc` when the underlying `xpediteMalloc` returns null;
otherwise it runs the constructor of `T` at that address and returns the same address
when the constructor completes, and raises the exception of the constructor when it
throws, so it raises `bad_alloc` exactly when `xpediteMalloc` returned null or the
constructor itself raised `bad_alloc`. Neither typed path ever returns a null pointer. -/
theorem C7_failure_signalling (mmap : Nat → Nat) (s sizeofT n : Nat)
    (construct : Nat → Except Exception Unit) :
    (mmap (roundedSize s) ≠ nullptr →
        ((xpediteMalloc mmap s).ptr = nullptr ↔ mmap (roundedSize s) = MAP_FAILED)) ∧
      ((xpediteMalloc mmap sizeofT).ptr = nullptr →
        xpediteNew mmap sizeofT construct = Except.error Exception.bad_alloc) ∧
      ((xpediteMalloc mmap sizeofT).ptr ≠ nullptr →
        (construct (xpediteMalloc mmap sizeofT).ptr = Except.ok () →
          xpediteNew mmap sizeofT construct =
            Except.ok (xpediteMalloc mmap sizeofT).ptr) ∧
        (∀ e : Exception, construct (xpediteMalloc mmap sizeofT).ptr = Except.error e →
          xpediteNew mmap sizeofT construct = Except.error e)) ∧
      (xpediteNew mmap sizeofT construct = Except.error Exception.bad_alloc ↔
        (xpediteMalloc mmap sizeofT).ptr = nullptr ∨
          construct (xpediteMalloc mmap sizeofT).ptr
            = Except.error Exception.bad_alloc) ∧
      (Allocator.allocate mmap sizeofT n = Except.error Exception.bad_alloc ↔
        (xpediteMalloc mmap (Allocator.byteSize sizeofT n)).ptr = nullptr) ∧
      ((xpediteMalloc mmap (Allocator.byteSize sizeofT n)).ptr ≠ nullptr →
        Allocator.allocate mmap sizeofT n =
          Except.ok (xpediteMalloc mmap (Allocator.byteSize sizeofT n)).ptr) ∧
      xpediteNew mmap sizeofT construct ≠ Except.ok nullptr ∧
      Allocator.allocate mmap sizeofT n ≠ Except.ok nullptr := by
  refine ⟨?_, ?_, ?_, ?_, ?_, ?_, ?_, ?_⟩
  · intro hnz
    rw [ptr_eq]
    by_cases hm : mmap (roundedSize s) = MAP_FAILED
    · simp [hm]
    · simp [hm, hnz]
  · intro hnull
    simp [xpediteNew, hnull]
  · intro hp
    refine ⟨fun hc => ?_, fun e hc => ?_⟩
    · simp [xpediteNew, hp, hc]
    · simp [xpediteNew, hp, hc]
  · by_cases hp : (xpediteMalloc mmap sizeofT).ptr = nullptr
    · simp [xpediteNew, hp]
    · unfold xpediteNew
      simp only [hp, ne_eq, not_false_eq_true, if_true, false_or]
      cases hc : construct (xpediteMalloc mmap sizeofT).ptr with
      | error e => simp
      | ok u => simp
  · by_cases hp : (xpediteMalloc mmap (Allocator.byteSize sizeofT n)).ptr = nullptr
    · simp [Allocator.allocate, hp]
    · simp [Allocator.allocate, hp]
  · intro hp
    simp [Allocator.allocate, hp]
  · by_cases hp : (xpediteMalloc mmap sizeofT).ptr = nullptr
    · simp [xpediteNew, hp]
    · unfold xpediteNew
      simp only [hp, ne_eq, not_false_eq_true, if_true]
      cases hc : construct (xpediteMalloc mmap sizeofT).ptr with
      | error e => simp
      | ok u =>
        simp only [ne_eq, Except.ok.injEq]
        exact hp
  · by_cases hp : (xpediteMalloc mmap (Allocator.byteSize sizeofT n)).ptr = nullptr
    · simp [Allocator.allocate, hp]
    · simp [Allocator.allocate, hp]

/-- Instance of the amended C7 on both paths. Failure path: `mmap` fails, so
`xpediteMalloc` returns null and `xpediteNew` raises `bad_alloc`. Success path: the
mapping succeeds at `0x7ffffffff000`, the constructor of `AlignedObject<4096>`
completes there, and `xpediteNew` returns that address. -/
theorem C7_failure_signalling_witness :
    ((fun _ => MAP_FAILED : Nat → Nat) (roundedSize 64) ≠ nullptr ∧
        ((xpediteMalloc (fun _ => MAP_FAILED) 64).ptr = nullptr ↔
          (fun _ => MAP_FAILED : Nat → Nat) (roundedSize 64) = MAP_FAILED)) ∧
      ((xpediteMalloc (fun _ => MAP_FAILED) 64).ptr = nullptr ∧
        xpediteNew (fun _ => MAP_FAILED) 64 (AlignedObject.init 64)
          = Except.error Exception.bad_alloc) ∧
      ((xpediteMalloc (fun _ => 140737488351232) 4096).ptr ≠ nullptr ∧
        AlignedObject.init 4096 (xpediteMalloc (fun _ => 140737488351232) 4096).ptr
          = Except.ok () ∧
        xpediteNew (fun _ => 140737488351232) 4096 (AlignedObject.init 4096)
          = Except.ok (xpediteMalloc (fun _ => 140737488351232) 4096).ptr) :=
  ⟨⟨by decide,
      (C7_failure_signalling (fun _ => MAP_FAILED) 64 64 1 (AlignedObject.init 64)).1
        (by decide)⟩,
    ⟨by decide,
      (C7_failure_signalling (fun _ => MAP_FAILED) 64 64 1 (AlignedObject.init 64)).2.1
        (by decide)⟩,
    ⟨by decide, by rfl,
      ((C7_failure_signalling (fun _ => 140737488351232) 4096 4096 1
        (AlignedObject.init 4096)).2.2.1 (by decide)).1 (by rfl)⟩⟩

theorem mask_eq (A : Nat) (hA : 1 ≤ A) (hlt : A < SIZE_MODULUS) :
    (A + SIZE_MODULUS - 1) % SIZE_MODULUS = A - 1 := by
  unfold SIZE_MODULUS at *
  omega

/-- C8: for every alignment `A` that is a power of two (below `2 ^ 64`) and every
address `p`, the `AlignedObject<A>` constructor completes without raising if and only
if `p` modulo `A` is 0, and raises the runtime alignment fault if and only if `p`
modulo `A` is non-zero; the mask test `p & (A - 1)` decides exactly that `p` is a
multiple of `A`. -/
theorem C8_alignment_check (A p : Nat) (hA : ∃ k : Nat, k < 64 ∧ A = 2 ^ k) :
    (AlignedObject.init A p = Except.ok () ↔ p % A = 0) ∧
      ((∃ what : String,
          AlignedObject.init A p = Except.error (Exception.runtime_error what)) ↔
        p % A ≠ 0) ∧
      (p &&& ((A + SIZE_MODULUS - 1) % SIZE_MODULUS) = 0 ↔ A ∣ p) := by
  obtain ⟨k, hk, rfl⟩ := hA
  have h1 : 1 ≤ 2 ^ k := Nat.one_le_two_pow
  have h2 : 2 ^ k < SIZE_MODULUS := by
    unfold SIZE_MODULUS
    exact Nat.pow_lt_pow_right (by decide) hk
  have hmask : p &&& ((2 ^ k + SIZE_MODULUS - 1) % SIZE_MODULUS) = p % 2 ^ k := by
    rw [mask_eq _ h1 h2, Nat.and_pow_two_sub_one_eq_mod]
  refine ⟨?_, ?_, ?_⟩
  · unfold AlignedObject.init
    rw [hmask]
    by_cases h0 : p % 2 ^ k = 0
    · simp [h0]
    · simp [h0]
  · unfold AlignedObject.init
    rw [hmask]
    by_cases h0 : p % 2 ^ k = 0
    · simp [h0]
    · simp [h0]
  · rw [hmask, Nat.dvd_iff_mod_eq_zero]

/-- Instance of C8: the cache line alignment 64 and the address `0x1040`. -/
theorem C8_alignment_check_witness :
    (∃ k : Nat, k < 64 ∧ 64 = 2 ^ k) ∧
      (AlignedObject.init 64 4160 = Except.ok () ↔ 4160 % 64 = 0) :=
  ⟨⟨6, by decide, by decide⟩, (C8_alignment_check 64 4160 ⟨6, by decide, by decide⟩).1⟩

/-- C9: for every element size `sz = sizeof(T) >= 1`, `max_size()` is the largest
element count whose byte size does not overflow `size_t`: `max_size() * sz <= SIZE_MAX`
and `(max_size() + 1) * sz > SIZE_MAX`; so for every `n <= max_size()` the product
`n * sizeof(T)` computed in `allocate(n)` does not wrap. -/
theorem C9_max_size (sz : Nat) (hsz : 1 ≤ sz) :
    Allocator.max_size sz * sz ≤ SIZE_MAX ∧
      SIZE_MAX < (Allocator.max_size sz + 1) * sz ∧
      (∀ n : Nat, n * sz ≤ SIZE_MAX → n ≤ Allocator.max_size sz) ∧
      (∀ n : Nat, n ≤ Allocator.max_size sz → Allocator.byteSize sz n = n * sz) := by
  have hle : Allocator.max_size sz * sz ≤ SIZE_MAX := Nat.div_mul_le_self _ _
  refine ⟨hle, ?_, ?_, ?_⟩
  · unfold Allocator.max_size
    exact (Nat.div_lt_iff_lt_mul hsz).mp (Nat.lt_succ_self _)
  · intro n hn
    unfold Allocator.max_size
    exact (Nat.le_div_iff_mul_le hsz).mpr hn
  · intro n hn
    unfold Allocator.byteSize
    apply Nat.mod_eq_of_lt
    have h1 : n * sz ≤ Allocator.max_size sz * sz := Nat.mul_le_mul_right sz hn
    have h2 : SIZE_MAX < SIZE_MODULUS := by decide
    omega

/-- Instance of C9: an element of 24 bytes. -/
theorem C9_max_size_witness :
    1 ≤ 24 ∧ Allocator.max_size 24 * 24 ≤ SIZE_MAX ∧
      SIZE_MAX < (Allocator.max_size 24 + 1) * 24 :=
  ⟨by decide, (C9_max_size 24 (by decide)).1, (C9_max_size 24 (by decide)).2.1⟩

end xpedite.util
